import Mathlib

/-!
Verification of the AI learning helper's batch-diagnosis core and its
front-end state logic.

The front-end definitions below are shallow embeddings of the TypeScript
sources under `ai_learning_web` (`lib/paper-types.ts`, `lib/paper-store.ts`,
`lib/utils.ts`, `app/paper/review/page.tsx`, `app/result/page.tsx`).
JavaScript records with numeric keys are modelled as association lists with
overwrite-on-insert; JavaScript numbers that only ever hold integers are
modelled as `Nat`/`Int`; fractional statistics are modelled as `ℚ`.

The backend Batch Diagnosis Aggregation Engine (QuestionNormalizer,
AnswerResolver, ReportAggregator, BatchDiagnosisOrchestrator) is not part of
the checked-in sources; its definitions here are modelled from the design
spec, and each such definition is marked as modelled from the spec.
-/

namespace AiLearning

/-! ## Front-end data model (lib/paper-types.ts) -/

structure Position where
  x : Int
  y : Int
deriving DecidableEq, Repr

structure FigureInfo where
  ftype : String
  x : Int
  y : Int
  w : Int
  h : Int
  description : Option String
deriving DecidableEq, Repr

structure PaperQuestion where
  index : Nat
  qtype : String
  question : String
  options : Option (List String)
  position : List (List Position)
  section_title : Option String
  knowledge_points : List String
  difficulty : String
  figures : List FigureInfo
  has_figure : Bool
  figure_description : Option String
deriving DecidableEq, Repr

structure PaperSection where
  part_title : String
  question_count : Nat
deriving DecidableEq, Repr

structure PaperStructure where
  page_id : Nat
  page_title : String
  width : Nat
  height : Nat
  sections : List PaperSection
deriving DecidableEq, Repr

structure PaperOCRResponse where
  paper_structure : PaperStructure
  questions : List PaperQuestion
  total_questions : Nat
  figures : List FigureInfo
deriving DecidableEq, Repr

structure QuestionAnswer where
  question_index : Nat
  user_answer : String
deriving DecidableEq, Repr

structure SingleDiagnoseResult where
  correct : Bool
  correct_answer : String
  user_answer : String
  error_type : String
  analysis : String
  mastery_score : Int
  next_action : String
  recommended_practice : List (String × String × Nat)
deriving DecidableEq, Repr

structure QuestionDiagnoseResult where
  question_index : Nat
  question : PaperQuestion
  diagnose_result : SingleDiagnoseResult
deriving DecidableEq, Repr

structure FrontTypeStats where
  total : Nat
  correct : Nat
  wrong : Nat
  unanswered : Nat
  accuracy : ℚ
deriving DecidableEq, Repr

structure FrontWeakPoint where
  knowledge : String
  error_count : Nat
  total_count : Nat
  accuracy : ℚ
  recommended_practice_count : Nat
deriving DecidableEq, Repr

structure DiagnoseSummary where
  total_questions : Nat
  answered_questions : Nat
  correct_count : Nat
  wrong_count : Nat
  unanswered_count : Nat
  accuracy : ℚ
  average_mastery : ℚ
  stats_by_type : List (String × FrontTypeStats)
  weak_knowledge_points : List FrontWeakPoint
  overall_suggestion : String
deriving DecidableEq, Repr

structure BatchDiagnoseResponse where
  results : List QuestionDiagnoseResult
  summary : DiagnoseSummary
deriving DecidableEq, Repr

/-- Model of JavaScript's `String.prototype.trim` (and Python's `strip`):
drop whitespace from both ends. Defined structurally over the character
list so that it evaluates on concrete inputs. -/
def jsTrim (s : String) : String :=
  String.mk (((s.data.dropWhile Char.isWhitespace).reverse.dropWhile Char.isWhitespace).reverse)

/-! ## JavaScript record helpers

A JS object with numeric keys (`Record<number, string>`) is modelled as an
association list; assignment overwrites the existing binding or appends a
fresh one. -/

/-- Lookup in a JS record: the value bound to key `k`, if any. -/
def recordGet (m : List (Nat × String)) (k : Nat) : Option String :=
  (m.find? (fun p => p.1 == k)).map Prod.snd

/-- JS assignment `m[k] = v`: overwrite the binding of `k` or append it. -/
def recordSet (m : List (Nat × String)) (k : Nat) (v : String) : List (Nat × String) :=
  match m with
  | [] => [(k, v)]
  | (k', v') :: rest =>
    if k' = k then (k, v) :: rest else (k', v') :: recordSet rest k v

/-- JS `Object.values(m)`. -/
def recordValues (m : List (Nat × String)) : List String :=
  m.map Prod.snd

/-! ## getQuestionStatus (lib/paper-types.ts, lines 168–189) -/

inductive QuestionStatus where
  | unanswered
  | answered
  | correct
  | wrong
deriving DecidableEq, Repr

/-- Shallow embedding of `getQuestionStatus` from `lib/paper-types.ts`:
before diagnosis the status is derived from the (trimmed) stored answer;
after diagnosis it is derived from the per-question result found by index,
with `error_type == "未作答"` taking priority, then the `correct` flag. -/
def getQuestionStatus (questionIndex : Nat) (userAnswers : List (Nat × String))
    (diagnoseResult : Option BatchDiagnoseResponse) : QuestionStatus :=
  let answer := recordGet userAnswers questionIndex
  match diagnoseResult with
  | none =>
    match answer with
    | some a => if jsTrim a ≠ "" then .answered else .unanswered
    | none => .unanswered
  | some dr =>
    match dr.results.find? (fun r => r.question_index == questionIndex) with
    | none => .unanswered
    | some result =>
      if result.diagnose_result.error_type = "未作答" then .unanswered
      else if result.diagnose_result.correct then .correct
      else .wrong

/-! ## Paper store (lib/paper-store.ts) -/

structure PaperState where
  paperImage : Option String
  paperImageBase64 : Option String
  ocrResult : Option PaperOCRResponse
  userAnswers : List (Nat × String)
  diagnoseResult : Option BatchDiagnoseResponse
  currentQuestionIndex : Option Nat
  isRecognizing : Bool
  isDiagnosing : Bool
  error : Option String
deriving DecidableEq, Repr

/-- Initial store state (`initialState` in `lib/paper-store.ts`). -/
def initialState : PaperState :=
  { paperImage := none
    paperImageBase64 := none
    ocrResult := none
    userAnswers := []
    diagnoseResult := none
    currentQuestionIndex := none
    isRecognizing := false
    isDiagnosing := false
    error := none }

/-- Embedding of `setPaperImage` (`lib/paper-store.ts`, lines 69–77): stores
the new image and base64 and clears the previous OCR result, answers,
diagnosis and error. -/
def setPaperImage (s : PaperState) (image : Option String)
    (base64 : Option String) : PaperState :=
  { s with
    paperImage := image
    paperImageBase64 := base64
    ocrResult := none
    userAnswers := []
    diagnoseResult := none
    error := none }

/-- The per-question answer-initialisation fold used by `setOCRResult`:
`result.questions.reduce((acc, q) => { acc[q.index] = ''; return acc }, {})`. -/
def initAnswers (qs : List PaperQuestion) : List (Nat × String) :=
  qs.foldl (fun acc q => recordSet acc q.index "") []

/-- Embedding of `setOCRResult` (`lib/paper-store.ts`, lines 80–87): stores
the OCR result and initialises `userAnswers` with an empty answer for every
recognised question (the empty record when the result is `null`). -/
def setOCRResult (s : PaperState) (result : Option PaperOCRResponse) : PaperState :=
  { s with
    ocrResult := result
    userAnswers :=
      match result with
      | some r => initAnswers r.questions
      | none => [] }

/-- Embedding of `getAnsweredCount` (`lib/paper-store.ts`, lines 131–134):
the number of stored answers whose trimmed text is non-empty. -/
def getAnsweredCount (s : PaperState) : Nat :=
  ((recordValues s.userAnswers).filter (fun a => jsTrim a ≠ "")).length

/-- The number of recognised questions held in the store
(`state.ocrResult?.questions.length || 0`). -/
def recognizedTotal (s : PaperState) : Nat :=
  match s.ocrResult with
  | some r => r.questions.length
  | none => 0

/-- Embedding of `getUnansweredCount` (`lib/paper-store.ts`, lines 136–141):
`total - answered` over JS numbers, hence an `Int`. -/
def getUnansweredCount (s : PaperState) : Int :=
  (recognizedTotal s : Int) - (getAnsweredCount s : Int)

/-- The localStorage key of the persisted paper store. -/
def paperStorageName : String := "paper-storage"

/-- The shape persisted by the store's `partialize`
(`lib/paper-store.ts`, lines 145–151). -/
structure PersistedPaperState where
  paperImage : Option String
  ocrResult : Option PaperOCRResponse
  userAnswers : List (Nat × String)
  diagnoseResult : Option BatchDiagnoseResponse
deriving DecidableEq, Repr

/-- Embedding of `partialize` (`lib/paper-store.ts`, lines 145–151): the
persisted slice of the store. -/
def partialize (s : PaperState) : PersistedPaperState :=
  { paperImage := s.paperImage
    ocrResult := s.ocrResult
    userAnswers := s.userAnswers
    diagnoseResult := s.diagnoseResult }

/-! ## Mastery tier helpers (lib/utils.ts and app/result/page.tsx) -/

structure MasteryLevelInfo where
  level : String
  color : String
  description : String
deriving DecidableEq, Repr

/-- Embedding of `getMasteryLevel` from `lib/utils.ts` (lines 58–94):
tier bands at 90 / 75 / 60 / 40. -/
def getMasteryLevel (score : Int) : MasteryLevelInfo :=
  if score ≥ 90 then
    { level := "优秀", color := "text-green-600",
      description := "你已经完全掌握了这个知识点！" }
  else if score ≥ 75 then
    { level := "良好", color := "text-blue-600",
      description := "掌握得不错，继续保持！" }
  else if score ≥ 60 then
    { level := "及格", color := "text-yellow-600",
      description := "基本掌握，还需要多加练习。" }
  else if score ≥ 40 then
    { level := "待提高", color := "text-orange-600",
      description := "还有进步空间，加油！" }
  else
    { level := "需要加强", color := "text-red-600",
      description := "建议系统复习基础知识。" }

/-- Embedding of `getMasteryLabel` from `app/result/page.tsx`
(lines 64–70): tier bands at 90 / 80 / 60 / 40. -/
def getMasteryLabel (score : Int) : String :=
  if score ≥ 90 then "优秀"
  else if score ≥ 80 then "良好"
  else if score ≥ 60 then "一般"
  else if score ≥ 40 then "较弱"
  else "需加强"

/-! ## Submission and option selection
(app/paper/review/page.tsx and app/review/page.tsx) -/

/-- JavaScript string-or (`a || b`): the empty string is the only falsy
string, so it falls through to `b`. -/
def jsOr (a b : String) : String :=
  if a = "" then b else a

/-- Embedding of the answer-building step of `handleSubmit`
(`app/paper/review/page.tsx`, lines 87–90):
every entry of `userAnswers` becomes one submitted
`{question_index, user_answer: answer || ''}` record. -/
def handleSubmitAnswers (userAnswers : List (Nat × String)) : List QuestionAnswer :=
  userAnswers.map (fun p => { question_index := p.1, user_answer := jsOr p.2 "" })

/-- JavaScript `s.charAt(i)`: the one-character string at position `i`,
or the empty string out of range. -/
def jsCharAt (s : String) (i : Nat) : String :=
  match s.data.drop i with
  | [] => ""
  | c :: _ => String.singleton c

/-- Embedding of the option click handlers
(`app/paper/review/page.tsx` line 268 and `app/review/page.tsx` line 179):
clicking an option submits `option.charAt(0)` as the choice answer. -/
def submittedChoiceAnswer (option : String) : String :=
  jsCharAt option 0

/-! ## Backend Batch Diagnosis Aggregation Engine

The backend implementation files are not part of the checked-in sources;
the definitions in this section are modelled from the design spec (§3–§4.4,
§7) and from the documented API examples. -/

/-- Modelled from the spec: the five recognised question kinds (§3). -/
inductive QType where
  | choice
  | fill
  | solve
  | proof
  | short_answer
deriving DecidableEq, Repr

/-- Modelled from the spec: the canonical backend `Question` entity (§3).
Bounding regions are display-only data and never touched by the logic. -/
structure Question where
  index : Nat
  qtype : QType
  prompt_text : String
  options : List String
  knowledge_points : List String
  difficulty : String
  bounding_regions : List (List (Int × Int))
  correct_answer : Option String
deriving DecidableEq, Repr

/-- Modelled from the spec: a submitted `Answer` (§3). An absent answer is
represented by `Option Answer = none` at the use sites. -/
structure Answer where
  question_index : Nat
  raw_text : String
deriving DecidableEq, Repr

/-- Modelled from the spec: the `error_kind` enumeration (§3). -/
inductive ErrorKind where
  | none
  | unanswered
  | concept_error
  | careless_error
  | unknown
deriving DecidableEq, Repr

/-- Modelled from the spec: a suggested-practice item (§3). -/
structure Practice where
  knowledge_point : String
  difficulty : String
  count : Nat
deriving DecidableEq, Repr

/-- Modelled from the spec: the per-question `DiagnosisVerdict` (§3). -/
structure DiagnosisVerdict where
  correct : Bool
  resolved_correct_answer : String
  user_answer : String
  error_kind : ErrorKind
  mastery_score : Int
  guidance_text : String
  suggested_practice : List Practice
deriving DecidableEq, Repr

/-- Modelled from the spec: the raw verdict shape produced by the untrusted
external diagnosis oracle (§6); its `error_kind` arrives as an arbitrary
string and its `mastery_score` may be out of range. -/
structure OracleVerdict where
  correct : Bool
  correct_answer : String
  error_kind : String
  mastery_score : Int
  guidance_text : String
  suggested_practice : List Practice
deriving DecidableEq, Repr

/-- Modelled from the spec: the external diagnosis oracle as a capability
`judge(question, raw_answer_text)`; `none` stands for an oracle failure
(timeout or malformed response, §4.2). -/
def Oracle : Type :=
  Question → String → Option OracleVerdict

/-- Modelled from the spec: defensive normalisation of the oracle's
`error_kind` string into the five recognised kinds, defaulting to
`unknown` (§4.2 rule 3). -/
def parseErrorKind (s : String) : ErrorKind :=
  if s = "none" then .none
  else if s = "unanswered" then .unanswered
  else if s = "concept_error" then .concept_error
  else if s = "careless_error" then .careless_error
  else if s = "unknown" then .unknown
  else .unknown

/-- Modelled from the spec: clamp a mastery score into `[0, 100]` (§4.2). -/
def clampScore (n : Int) : Int :=
  max 0 (min 100 n)

/-- Modelled from the spec: the verdict produced for an absent or blank
answer (§4.2 rule 1). -/
def unansweredVerdict (q : Question) : DiagnosisVerdict :=
  { correct := false
    resolved_correct_answer := q.correct_answer.getD ""
    user_answer := ""
    error_kind := .unanswered
    mastery_score := 0
    guidance_text := "本题未作答，建议完成后再诊断。"
    suggested_practice := [] }

/-- Modelled from the spec: the generic retry notice carried by a degraded
verdict (§4.2 failure mode, §7). -/
def retryNotice : String :=
  "诊断服务暂时不可用，建议稍后重试。"

/-- Modelled from the spec: the degraded verdict substituted when the
oracle call for one question fails (§4.2 failure mode): `error_kind =
unknown`, `mastery_score = 0`, a generic retry notice as guidance. -/
def degradedVerdict (q : Question) (raw : String) : DiagnosisVerdict :=
  { correct := false
    resolved_correct_answer := q.correct_answer.getD ""
    user_answer := raw
    error_kind := .unknown
    mastery_score := 0
    guidance_text := retryNotice
    suggested_practice := [] }

/-- The lower-cased first character of a string, if any. Both halves of the
choice-grading contract compare strings through this observation. -/
def firstCharLower (s : String) : Option Char :=
  s.data.head?.map Char.toLower

/-- Modelled from the spec: the deterministic choice-question verdict
(§4.2 rule 2): correct exactly when the first characters of the submitted
text and of `correct_answer` match case-insensitively. The presentation
fields of the verdict are not fixed by the spec. -/
def choiceVerdict (q : Question) (ca : String) (raw : String) : DiagnosisVerdict :=
  let ok := firstCharLower raw = firstCharLower ca
  { correct := ok
    resolved_correct_answer := ca
    user_answer := raw
    error_kind := if ok then .none else .careless_error
    mastery_score := if ok then 100 else 20
    guidance_text := if ok then "回答正确。" else "选项有误，建议复习相关知识点。"
    suggested_practice := [] }

/-- Modelled from the spec: the verdict adopted verbatim from a successful
oracle call, with `mastery_score` clamped into `[0, 100]` and `error_kind`
normalised to the five recognised kinds (§4.2 rule 3). -/
def adoptVerdict (raw : String) (ov : OracleVerdict) : DiagnosisVerdict :=
  { correct := ov.correct
    resolved_correct_answer := ov.correct_answer
    user_answer := raw
    error_kind := parseErrorKind ov.error_kind
    mastery_score := clampScore ov.mastery_score
    guidance_text := ov.guidance_text
    suggested_practice := ov.suggested_practice }

/-- Modelled from the spec: `AnswerResolver.resolve` (§4.2) with the
orchestrator's degradation policy folded in (§4.4): rule 1 short-circuits
blank or absent answers, rule 2 grades choice questions with a known
`correct_answer` deterministically, rule 3 delegates to the oracle, adopting
its verdict with a clamped score and a normalised `error_kind`, and an
oracle failure yields the degraded verdict instead of failing. -/
def resolve (oracle : Oracle) (q : Question) (answer : Option Answer) : DiagnosisVerdict :=
  match answer with
  | Option.none => unansweredVerdict q
  | some a =>
    if jsTrim a.raw_text = "" then unansweredVerdict q
    else
      match q.correct_answer, q.qtype with
      | some ca, QType.choice => choiceVerdict q ca a.raw_text
      | _, _ =>
        match oracle q a.raw_text with
        | some ov => adoptVerdict a.raw_text ov
        | Option.none => degradedVerdict q a.raw_text

/-! ## ReportAggregator (modelled from the spec, §4.3) -/

/-- Modelled from the spec: the three-way classification of a verdict, in
priority order: `unanswered` when `error_kind == unanswered`, else
`correct` when the `correct` flag is set, else `wrong` (§4.3). -/
inductive Bucket where
  | correct
  | wrong
  | unanswered
deriving DecidableEq, Repr

/-- Modelled from the spec: which bucket a verdict falls into (§4.3). -/
def classify (v : DiagnosisVerdict) : Bucket :=
  if v.error_kind = .unanswered then .unanswered
  else if v.correct then .correct
  else .wrong

/-- Modelled from the spec: `correct_count` over a verdict list (§4.3). -/
def correctCount (vs : List DiagnosisVerdict) : Nat :=
  vs.countP (fun v => classify v = .correct)

/-- Modelled from the spec: `wrong_count` over a verdict list (§4.3). -/
def wrongCount (vs : List DiagnosisVerdict) : Nat :=
  vs.countP (fun v => classify v = .wrong)

/-- Modelled from the spec: `unanswered_count` over a verdict list (§4.3). -/
def unansweredCount (vs : List DiagnosisVerdict) : Nat :=
  vs.countP (fun v => classify v = .unanswered)

/-- Modelled from the spec: `answered_questions` over a verdict list (§4.3). -/
def answeredCount (vs : List DiagnosisVerdict) : Nat :=
  vs.countP (fun v => v.error_kind ≠ .unanswered)

/-- Modelled from the spec: `accuracy = 100 * correct_count /
total_questions`, `0` when `total_questions == 0` (§4.3, §7). -/
def accuracy (vs : List DiagnosisVerdict) : ℚ :=
  if vs.length = 0 then 0
  else 100 * (correctCount vs : ℚ) / (vs.length : ℚ)

/-- Modelled from the spec: `average_mastery`, the arithmetic mean of
`mastery_score` over all verdicts including unanswered ones, `0` on the
empty list (§4.3, §7). -/
def averageMastery (vs : List DiagnosisVerdict) : ℚ :=
  if vs.length = 0 then 0
  else ((vs.map (fun v => (v.mastery_score : ℚ))).sum) / (vs.length : ℚ)

/-- Modelled from the spec: per-type statistics, the same
total/correct/wrong/unanswered/accuracy tuple scoped to one question type
(§4.3). -/
structure TypeStats where
  total : Nat
  correct : Nat
  wrong : Nat
  unanswered : Nat
  accuracy : ℚ
deriving DecidableEq, Repr

/-- Modelled from the spec: the statistics tuple for the verdicts of one
question type (§4.3). -/
def statsFor (pairs : List (Question × DiagnosisVerdict)) (t : QType) : TypeStats :=
  let vs := (pairs.filter (fun p => p.1.qtype = t)).map Prod.snd
  { total := vs.length
    correct := correctCount vs
    wrong := wrongCount vs
    unanswered := unansweredCount vs
    accuracy := accuracy vs }

/-- Modelled from the spec: a ranked weak knowledge point (§4.3). -/
structure WeakKnowledgePoint where
  knowledge : String
  error_count : Nat
  total_count : Nat
  accuracy : ℚ
  recommended_practice_count : Nat
deriving DecidableEq, Repr

/-- Modelled from the spec: the weak-point ordering — ascending by
accuracy, ties broken by descending `error_count` (§4.3). -/
def wkpLE (a b : WeakKnowledgePoint) : Prop :=
  a.accuracy < b.accuracy ∨ (a.accuracy = b.accuracy ∧ b.error_count ≤ a.error_count)

instance : DecidableRel wkpLE := fun a b => by
  unfold wkpLE; infer_instance

instance : IsTotal WeakKnowledgePoint wkpLE where
  total a b := by
    rcases lt_trichotomy a.accuracy b.accuracy with h | h | h
    · exact Or.inl (Or.inl h)
    · rcases Nat.le_total b.error_count a.error_count with h' | h'
      · exact Or.inl (Or.inr ⟨h, h'⟩)
      · exact Or.inr (Or.inr ⟨h.symm, h'⟩)
    · exact Or.inr (Or.inl h)

instance : IsTrans WeakKnowledgePoint wkpLE where
  trans a b c hab hbc := by
    rcases hab with hab | ⟨hab, hab'⟩
    · rcases hbc with hbc | ⟨hbc, _⟩
      · exact Or.inl (hab.trans hbc)
      · exact Or.inl (hbc ▸ hab)
    · rcases hbc with hbc | ⟨hbc, hbc'⟩
      · exact Or.inl (hab ▸ hbc)
      · exact Or.inr ⟨hab.trans hbc, hbc'.trans hab'⟩

/-- Modelled from the spec: the accumulated statistic of one knowledge
point over the verdict list — `error_count` counts wrong verdicts
referencing it, `total_count` counts non-unanswered verdicts referencing
it, `accuracy = 100 * (total_count - error_count) / total_count`, and
`recommended_practice_count = min(5, max(2, error_count * 2))` (§4.3). -/
def kpStat (pairs : List (Question × DiagnosisVerdict)) (kp : String) : WeakKnowledgePoint :=
  let refs := pairs.filter (fun p => kp ∈ p.1.knowledge_points)
  let errors := (refs.filter (fun p => classify p.2 = .wrong)).length
  let total := (refs.filter (fun p => classify p.2 ≠ .unanswered)).length
  { knowledge := kp
    error_count := errors
    total_count := total
    accuracy := if total = 0 then 0 else 100 * ((total : ℚ) - (errors : ℚ)) / (total : ℚ)
    recommended_practice_count := min 5 (max 2 (errors * 2)) }

/-- Modelled from the spec: `weak_knowledge_points` — stats for each
distinct knowledge point appearing on an answered-but-wrong question,
filtered to `total_count > 0` and `accuracy < 100`, sorted ascending by
accuracy with ties broken by descending `error_count`, truncated to the
top 5 (§4.3). -/
def weakKnowledgePoints (pairs : List (Question × DiagnosisVerdict)) : List WeakKnowledgePoint :=
  let candidates :=
    ((pairs.filter (fun p => classify p.2 = .wrong)).flatMap
      (fun p => p.1.knowledge_points)).dedup
  let stats := candidates.map (kpStat pairs)
  let kept := stats.filter (fun w => 0 < w.total_count ∧ w.accuracy < 100)
  (kept.insertionSort wkpLE).take 5

/-! ## overall_suggestion (modelled from the spec, §4.3 clause list) -/

/-- Modelled from the spec: the unanswered-questions nudge, clause (a) of
`overall_suggestion`; its exact wording follows the documented API
example. -/
def unansweredNudge (n : Nat) : String :=
  s!"有 {n} 道题目未作答，建议完成所有题目以获得更全面的诊断。"

/-- Modelled from the spec: the accuracy-tier remark, clause (b) of
`overall_suggestion`, banded at ≥90 / ≥75 / ≥60 (§4.3). -/
def tierRemark (acc : ℚ) : String :=
  if acc ≥ 90 then "正确率优秀，继续保持。"
  else if acc ≥ 75 then "正确率良好，还有提升空间。"
  else if acc ≥ 60 then "正确率一般，建议加强基础练习。"
  else "正确率较低，建议系统复习相关知识点。"

/-- Modelled from the spec: clause (c) of `overall_suggestion`, naming up
to 3 of the top weak points (§4.3). -/
def weakClause (weak : List WeakKnowledgePoint) : String :=
  "主要薄弱知识点：" ++
    String.intercalate "、" ((weak.take 3).map WeakKnowledgePoint.knowledge) ++
    "。建议集中练习这些知识点。"

/-- Modelled from the spec: `overall_suggestion`, clauses (a), (b), (c)
concatenated in this fixed order (§4.3). -/
def overallSuggestion (unanswered : Nat) (acc : ℚ)
    (weak : List WeakKnowledgePoint) : String :=
  (if 0 < unanswered then unansweredNudge unanswered else "") ++
    tierRemark acc ++
    (if weak.isEmpty then "" else weakClause weak)

/-- Modelled from the spec: the `BatchReport` aggregate (§3, §4.3). -/
structure BatchReport where
  total_questions : Nat
  answered_questions : Nat
  correct_count : Nat
  wrong_count : Nat
  unanswered_count : Nat
  accuracy : ℚ
  average_mastery : ℚ
  stats_by_type : List (QType × TypeStats)
  weak_knowledge_points : List WeakKnowledgePoint
  overall_suggestion : String
deriving DecidableEq, Repr

/-- Modelled from the spec: `ReportAggregator.aggregate` (§4.3). -/
def aggregate (pairs : List (Question × DiagnosisVerdict)) : BatchReport :=
  let vs := pairs.map Prod.snd
  let weak := weakKnowledgePoints pairs
  { total_questions := vs.length
    answered_questions := answeredCount vs
    correct_count := correctCount vs
    wrong_count := wrongCount vs
    unanswered_count := unansweredCount vs
    accuracy := accuracy vs
    average_mastery := averageMastery vs
    stats_by_type :=
      ((pairs.map (fun p => p.1.qtype)).dedup).map (fun t => (t, statsFor pairs t))
    weak_knowledge_points := weak
    overall_suggestion := overallSuggestion (unansweredCount vs) (accuracy vs) weak }

/-! ## BatchDiagnosisOrchestrator (modelled from the spec, §4.4) -/

/-- Modelled from the spec: the full batch result — the ordered
per-question verdict list together with the aggregated summary (§4.4). -/
structure BatchResponse where
  results : List (Question × DiagnosisVerdict)
  summary : BatchReport
deriving DecidableEq, Repr

/-- Modelled from the spec: look up the answer submitted for a question
index (§4.4, join by `index`). -/
def lookupAnswer (answers : List Answer) (idx : Nat) : Option Answer :=
  answers.find? (fun a => a.question_index == idx)

/-- Modelled from the spec: `diagnose_batch(questions, answers)` (§4.4) —
rejects duplicate question indices, otherwise resolves each question in
input order against its answer (absent answers count as unanswered,
per-question oracle failures degrade, never aborting the batch) and
aggregates the ordered verdict list. -/
def diagnose_batch (oracle : Oracle) (questions : List Question)
    (answers : List Answer) : Except String BatchResponse :=
  if (questions.map Question.index).Nodup then
    let results := questions.map (fun q => (q, resolve oracle q (lookupAnswer answers q.index)))
    .ok { results := results, summary := aggregate results }
  else
    .error "DuplicateQuestionIndexError"

/-- Modelled from the spec: the observable condition under which the
resolver's oracle call for a question fails — an answered question outside
the deterministic choice path whose oracle response is absent (§4.2
failure mode). -/
def oracleFails (oracle : Oracle) (q : Question) (ans : List Answer) : Bool :=
  match lookupAnswer ans q.index with
  | Option.none => false
  | some a =>
    !(jsTrim a.raw_text == "") &&
    !(q.correct_answer.isSome && q.qtype == QType.choice) &&
    (oracle q a.raw_text).isNone

/-! ## Helper lemmas about JS records -/

theorem recordGet_recordSet (m : List (Nat × String)) (k : Nat) (v : String) (i : Nat) :
    recordGet (recordSet m k v) i = if i = k then some v else recordGet m i := by
  induction m with
  | nil =>
    by_cases h : i = k
    · subst h; simp [recordGet, recordSet, List.find?]
    · have hb : (k == i) = false := by
        simpa using fun hh : k = i => h hh.symm
      simp [recordGet, recordSet, List.find?, hb, h]
  | cons p rest ih =>
    obtain ⟨k', v'⟩ := p
    by_cases hk : k' = k
    · subst hk
      by_cases h : i = k'
      · subst h; simp [recordGet, recordSet, List.find?]
      · have hb : (k' == i) = false := by
          simpa using fun hh : k' = i => h hh.symm
        simp [recordGet, recordSet, List.find?, hb, h]
    · by_cases h : i = k'
      · subst h
        simp [recordGet, recordSet, List.find?, hk]
      · have hb : (k' == i) = false := by
          simpa using fun hh : k' = i => h hh.symm
        have e1 : recordSet ((k', v') :: rest) k v = (k', v') :: recordSet rest k v := by
          simp [recordSet, hk]
        have e2 : recordGet ((k', v') :: recordSet rest k v) i = recordGet (recordSet rest k v) i := by
          simp [recordGet, List.find?, hb]
        have e3 : recordGet ((k', v') :: rest) i = recordGet rest i := by
          simp [recordGet, List.find?, hb]
        rw [e1, e2, e3, ih]

theorem recordGet_initAnswers_fold (qs : List PaperQuestion)
    (m : List (Nat × String)) (i : Nat) :
    recordGet (qs.foldl (fun acc q => recordSet acc q.index "") m) i =
      if i ∈ qs.map PaperQuestion.index then some "" else recordGet m i := by
  induction qs generalizing m with
  | nil => simp
  | cons q qs ih =>
    rw [List.foldl_cons, ih]
    by_cases h1 : i ∈ qs.map PaperQuestion.index <;>
      by_cases h2 : i = q.index <;>
        simp [h1, h2, recordGet_recordSet]

theorem recordValues_recordSet (m : List (Nat × String)) (k : Nat) (v w : String)
    (hw : w ∈ recordValues (recordSet m k v)) : w = v ∨ w ∈ recordValues m := by
  induction m with
  | nil => simpa [recordValues, recordSet] using hw
  | cons p rest ih =>
    obtain ⟨k', v'⟩ := p
    by_cases hk : k' = k
    · subst hk
      have e1 : recordSet ((k', v') :: rest) k' v = (k', v) :: rest := by
        simp [recordSet]
      rw [e1] at hw
      simp only [recordValues, List.map_cons, List.mem_cons] at hw ⊢
      tauto
    · have e1 : recordSet ((k', v') :: rest) k v = (k', v') :: recordSet rest k v := by
        simp [recordSet, hk]
      rw [e1] at hw
      simp only [recordValues, List.map_cons, List.mem_cons] at hw ⊢
      rcases hw with hw | hw
      · exact Or.inr (Or.inl hw)
      · rcases ih hw with h | h
        · exact Or.inl h
        · exact Or.inr (Or.inr h)

theorem recordValues_initAnswers_fold (qs : List PaperQuestion)
    (m : List (Nat × String)) (hm : ∀ w ∈ recordValues m, w = "") :
    ∀ w ∈ recordValues (qs.foldl (fun acc q => recordSet acc q.index "") m), w = "" := by
  induction qs generalizing m with
  | nil => simpa using hm
  | cons q qs ih =>
    rw [List.foldl_cons]
    refine ih _ (fun w hw => ?_)
    rcases recordValues_recordSet m q.index "" w hw with h | h
    · exact h
    · exact hm w h

theorem recordValues_initAnswers (qs : List PaperQuestion) :
    ∀ w ∈ recordValues (initAnswers qs), w = "" := by
  refine recordValues_initAnswers_fold qs [] ?_
  simp [recordValues]

/-! ## Claims about the paper store -/

/-- C8: after `setOCRResult(result)` with a non-null result, `userAnswers`
binds exactly the index of every recognised question to the empty string;
consequently `getAnsweredCount()` is `0` and `getUnansweredCount()` is the
number of recognised questions, and `getAnsweredCount() +
getUnansweredCount()` always equals the number of recognised questions. -/
theorem setOCRResult_initializes_answers :
    (∀ (s : PaperState) (r : PaperOCRResponse) (i : Nat),
      recordGet (setOCRResult s (some r)).userAnswers i =
        if i ∈ r.questions.map PaperQuestion.index then some "" else none) ∧
    (∀ (s : PaperState) (r : PaperOCRResponse),
      getAnsweredCount (setOCRResult s (some r)) = 0) ∧
    (∀ (s : PaperState) (r : PaperOCRResponse),
      getUnansweredCount (setOCRResult s (some r)) = r.questions.length) ∧
    (∀ s : PaperState,
      (getAnsweredCount s : ℤ) + getUnansweredCount s = (recognizedTotal s : ℤ)) := by
  have hvals : ∀ (s : PaperState) (r : PaperOCRResponse),
      getAnsweredCount (setOCRResult s (some r)) = 0 := by
    intro s r
    have hall := recordValues_initAnswers r.questions
    unfold getAnsweredCount
    have : (recordValues (setOCRResult s (some r)).userAnswers).filter
        (fun a => jsTrim a ≠ "") = [] := by
      rw [List.filter_eq_nil_iff]
      intro a ha
      have := hall a ha
      subst this
      decide
    rw [this]
    rfl
  refine ⟨?_, hvals, ?_, ?_⟩
  · intro s r i
    have := recordGet_initAnswers_fold r.questions [] i
    simpa [setOCRResult, initAnswers, recordGet] using this
  · intro s r
    unfold getUnansweredCount
    rw [hvals s r]
    simp [recognizedTotal, setOCRResult]
  · intro s
    unfold getUnansweredCount
    ring

/-- C9: `setPaperImage` stores the new image and base64, resets
`ocrResult`, `userAnswers`, `diagnoseResult` and `error` to their initial
empty values, and leaves `currentQuestionIndex`, `isRecognizing` and
`isDiagnosing` unchanged. -/
theorem setPaperImage_resets_results :
    ∀ (s : PaperState) (image base64 : Option String),
      (setPaperImage s image base64).paperImage = image ∧
      (setPaperImage s image base64).paperImageBase64 = base64 ∧
      (setPaperImage s image base64).ocrResult = initialState.ocrResult ∧
      (setPaperImage s image base64).userAnswers = initialState.userAnswers ∧
      (setPaperImage s image base64).diagnoseResult = initialState.diagnoseResult ∧
      (setPaperImage s image base64).error = initialState.error ∧
      (setPaperImage s image base64).currentQuestionIndex = s.currentQuestionIndex ∧
      (setPaperImage s image base64).isRecognizing = s.isRecognizing ∧
      (setPaperImage s image base64).isDiagnosing = s.isDiagnosing := by
  intro s image base64
  refine ⟨rfl, rfl, rfl, rfl, rfl, rfl, rfl, rfl, rfl⟩

/-- C10: the paper store is persisted under the localStorage key
`paper-storage`, and `partialize` selects exactly `paperImage`,
`ocrResult`, `userAnswers` and `diagnoseResult`; the remaining fields never
influence the persisted value. -/
theorem partialize_persists_four_fields :
    paperStorageName = "paper-storage" ∧
    (∀ s : PaperState,
      (partialize s).paperImage = s.paperImage ∧
      (partialize s).ocrResult = s.ocrResult ∧
      (partialize s).userAnswers = s.userAnswers ∧
      (partialize s).diagnoseResult = s.diagnoseResult) ∧
    (∀ (s : PaperState) (b : Option String) (ci : Option Nat)
        (rec diag : Bool) (e : Option String),
      partialize { s with
        paperImageBase64 := b
        currentQuestionIndex := ci
        isRecognizing := rec
        isDiagnosing := diag
        error := e } = partialize s) := by
  refine ⟨rfl, fun s => ⟨rfl, rfl, rfl, rfl⟩, fun s b ci rec diag e => rfl⟩

/-! ## Helper lemmas about the resolver and the aggregate counts -/

theorem resolve_none_eq_unanswered (oracle : Oracle) (q : Question) :
    resolve oracle q Option.none = unansweredVerdict q := rfl

theorem resolve_blank (oracle : Oracle) (q : Question) (a : Answer)
    (h : jsTrim a.raw_text = "") :
    resolve oracle q (some a) = unansweredVerdict q := by
  simp [resolve, h]

theorem bucket_counts_partition (vs : List DiagnosisVerdict) :
    correctCount vs + wrongCount vs + unansweredCount vs = vs.length := by
  induction vs with
  | nil => rfl
  | cons v vs ih =>
    unfold correctCount wrongCount unansweredCount at *
    rw [List.countP_cons, List.countP_cons, List.countP_cons, List.length_cons]
    cases hb : classify v <;> simp [hb] <;> omega

/-! ## Sample data used by the witnesses -/

def sampleFrontQ : PaperQuestion :=
  { index := 1
    qtype := "choice"
    question := "下列哪项正确？"
    options := some ["A. 甲", "B. 乙"]
    position := []
    section_title := none
    knowledge_points := ["运动学基础"]
    difficulty := "medium"
    figures := []
    has_figure := false
    figure_description := none }

def sampleDiag (et : String) (c : Bool) : SingleDiagnoseResult :=
  { correct := c
    correct_answer := "A"
    user_answer := "A"
    error_type := et
    analysis := "分析"
    mastery_score := 80
    next_action := "继续练习"
    recommended_practice := [] }

def sampleSummary : DiagnoseSummary :=
  { total_questions := 1
    answered_questions := 1
    correct_count := 1
    wrong_count := 0
    unanswered_count := 0
    accuracy := 100
    average_mastery := 80
    stats_by_type := []
    weak_knowledge_points := []
    overall_suggestion := "" }

def sampleBatchDR : BatchDiagnoseResponse :=
  { results := [ { question_index := 1, question := sampleFrontQ,
                   diagnose_result := sampleDiag "无" true } ]
    summary := sampleSummary }

def sampleVerdictCorrect : DiagnosisVerdict :=
  { correct := true
    resolved_correct_answer := "A"
    user_answer := "A"
    error_kind := .none
    mastery_score := 95
    guidance_text := "回答正确。"
    suggested_practice := [] }

def sampleVerdictWrong : DiagnosisVerdict :=
  { correct := false
    resolved_correct_answer := "A"
    user_answer := "B"
    error_kind := .concept_error
    mastery_score := 40
    guidance_text := "概念有误。"
    suggested_practice := [] }

def sampleQ2 : Question :=
  { index := 2
    qtype := .fill
    prompt_text := "2 + 2 = ？"
    options := []
    knowledge_points := ["加法"]
    difficulty := "easy"
    bounding_regions := []
    correct_answer := none }

def oracleAlways : Oracle := fun _ _ =>
  some { correct := true
         correct_answer := "4"
         error_kind := "none"
         mastery_score := 90
         guidance_text := "很好"
         suggested_practice := [] }

/-! ## C1, C3, C4 -/

/-- C1: every verdict falls into exactly one of the three buckets in
priority order (unanswered if `error_kind == unanswered`, else correct if
the `correct` flag holds, else wrong), so `correct_count + wrong_count +
unanswered_count == total_questions`; and `getQuestionStatus` computes the
same three-way classification, in the same priority order, per question
once a diagnosis result is present, classifying an index absent from the
results list as unanswered. -/
theorem three_way_classification :
    (∀ vs : List DiagnosisVerdict,
      correctCount vs + wrongCount vs + unansweredCount vs = vs.length) ∧
    (∀ v : DiagnosisVerdict,
      (classify v = .unanswered ↔ v.error_kind = .unanswered) ∧
      (classify v = .correct ↔ v.error_kind ≠ .unanswered ∧ v.correct = true) ∧
      (classify v = .wrong ↔ v.error_kind ≠ .unanswered ∧ v.correct = false)) ∧
    (∀ (idx : Nat) (ua : List (Nat × String)) (dr : BatchDiagnoseResponse)
        (r : QuestionDiagnoseResult),
      dr.results.find? (fun x => x.question_index == idx) = some r →
      getQuestionStatus idx ua (some dr) =
        (if r.diagnose_result.error_type = "未作答" then .unanswered
         else if r.diagnose_result.correct then .correct else .wrong)) ∧
    (∀ (idx : Nat) (ua : List (Nat × String)) (dr : BatchDiagnoseResponse),
      dr.results.find? (fun x => x.question_index == idx) = none →
      getQuestionStatus idx ua (some dr) = .unanswered) := by
  refine ⟨bucket_counts_partition, ?_, ?_, ?_⟩
  · intro v
    unfold classify
    by_cases h1 : v.error_kind = .unanswered
    · simp [h1]
    · by_cases h2 : v.correct <;> simp [h1, h2]
  · intro idx ua dr r h
    simp [getQuestionStatus, h]
  · intro idx ua dr h
    simp [getQuestionStatus, h]

/-- Witness for C1 at a concrete diagnosis response: the question present
in the results with a correct verdict classifies as correct, and an index
absent from the results classifies as unanswered. -/
theorem three_way_classification_witness :
    getQuestionStatus 1 [] (some sampleBatchDR) = QuestionStatus.correct ∧
    getQuestionStatus 2 [] (some sampleBatchDR) = QuestionStatus.unanswered := by
  constructor
  · have h := three_way_classification.2.2.1 1 [] sampleBatchDR
      { question_index := 1, question := sampleFrontQ, diagnose_result := sampleDiag "无" true }
      (by decide)
    rw [h]
    decide
  · exact three_way_classification.2.2.2 2 [] sampleBatchDR (by decide)

/-- C3: the aggregated accuracy is total and safe — it equals
`100 * correct_count / total_questions` whenever `total_questions > 0`,
equals `0` on the empty verdict list, and always lies in `[0, 100]`. -/
theorem accuracy_total_and_bounded :
    (∀ vs : List DiagnosisVerdict, 0 ≤ accuracy vs ∧ accuracy vs ≤ 100) ∧
    accuracy [] = 0 ∧
    (∀ vs : List DiagnosisVerdict, vs.length ≠ 0 →
      accuracy vs = 100 * (correctCount vs : ℚ) / (vs.length : ℚ)) := by
  refine ⟨?_, rfl, ?_⟩
  · intro vs
    unfold accuracy
    by_cases h : vs.length = 0
    · simp [h]
    · rw [if_neg h]
      have hn : (0 : ℚ) < (vs.length : ℚ) := by
        have : 0 < vs.length := Nat.pos_of_ne_zero h
        exact_mod_cast this
      have hc : (correctCount vs : ℚ) ≤ (vs.length : ℚ) := by
        have : correctCount vs ≤ vs.length := by
          unfold correctCount
          exact List.countP_le_length _
        exact_mod_cast this
      constructor
      · positivity
      · rw [div_le_iff₀ hn]
        nlinarith
  · intro vs h
    unfold accuracy
    rw [if_neg h]

/-- Witness for C3 at concrete verdict lists: a single correct verdict
yields accuracy 100 via the division formula, and a correct/wrong pair
yields 50. -/
theorem accuracy_total_and_bounded_witness :
    accuracy [sampleVerdictCorrect] = 100 ∧
    accuracy [sampleVerdictCorrect, sampleVerdictWrong] = 50 := by
  constructor
  · have h := accuracy_total_and_bounded.2.2 [sampleVerdictCorrect] (by decide)
    rw [h]
    have hc : correctCount [sampleVerdictCorrect] = 1 := by decide
    rw [hc]
    norm_num
  · have h := accuracy_total_and_bounded.2.2
      [sampleVerdictCorrect, sampleVerdictWrong] (by decide)
    rw [h]
    have hc : correctCount [sampleVerdictCorrect, sampleVerdictWrong] = 1 := by decide
    rw [hc]
    norm_num

/-- C4: a blank (empty or all-whitespace) answer and an absent answer
produce identical verdicts — `error_kind = unanswered`, `correct = false`,
`mastery_score = 0` — without consulting the oracle; `handleSubmit`
submits every stored answer (the empty ones included) verbatim with
`answer || ''`; and `getQuestionStatus` returns unanswered both for an
index missing from the results and for a pre-diagnosis answer that trims
to empty (or no stored answer at all). -/
theorem unanswered_blank_equiv :
    (∀ (oracle : Oracle) (q : Question) (i : Nat),
      resolve oracle q Option.none =
        resolve oracle q (some { question_index := i, raw_text := "" })) ∧
    (∀ (oracle : Oracle) (q : Question) (a : Answer), jsTrim a.raw_text = "" →
      resolve oracle q (some a) = unansweredVerdict q) ∧
    (∀ q : Question,
      (unansweredVerdict q).error_kind = .unanswered ∧
      (unansweredVerdict q).correct = false ∧
      (unansweredVerdict q).mastery_score = 0) ∧
    (∀ (o1 o2 : Oracle) (q : Question) (a : Answer), jsTrim a.raw_text = "" →
      resolve o1 q (some a) = resolve o2 q (some a)) ∧
    (∀ ua : List (Nat × String),
      handleSubmitAnswers ua =
        ua.map (fun p => { question_index := p.1, user_answer := p.2 })) ∧
    (∀ (idx : Nat) (ua : List (Nat × String)) (dr : BatchDiagnoseResponse),
      dr.results.find? (fun x => x.question_index == idx) = none →
      getQuestionStatus idx ua (some dr) = .unanswered) ∧
    (∀ (idx : Nat) (ua : List (Nat × String)),
      recordGet ua idx = none → getQuestionStatus idx ua none = .unanswered) ∧
    (∀ (idx : Nat) (ua : List (Nat × String)) (a : String),
      recordGet ua idx = some a → jsTrim a = "" →
      getQuestionStatus idx ua none = .unanswered) := by
  refine ⟨?_, resolve_blank, ?_, ?_, ?_, ?_, ?_, ?_⟩
  · intro oracle q i
    rw [resolve_none_eq_unanswered,
      resolve_blank oracle q { question_index := i, raw_text := "" }
        (show jsTrim "" = "" by decide)]
  · intro q
    exact ⟨rfl, rfl, rfl⟩
  · intro o1 o2 q a h
    rw [resolve_blank _ _ _ h, resolve_blank _ _ _ h]
  · intro ua
    have hfun : ∀ p : Nat × String,
        ({ question_index := p.1, user_answer := jsOr p.2 "" } : QuestionAnswer) =
          { question_index := p.1, user_answer := p.2 } := by
      intro p
      by_cases h : p.2 = "" <;> simp [jsOr, h]
    simp [handleSubmitAnswers, hfun]
  · intro idx ua dr h
    simp [getQuestionStatus, h]
  · intro idx ua h
    simp [getQuestionStatus, h]
  · intro idx ua a h h2
    simp [getQuestionStatus, h, h2]

/-- Witness for C4 at concrete inputs: a whitespace-only answer resolves
exactly like an absent one under any oracle, and a stored whitespace-only
answer shows as unanswered before diagnosis. -/
theorem unanswered_blank_equiv_witness :
    resolve oracleAlways sampleQ2 (some { question_index := 2, raw_text := "  " }) =
      unansweredVerdict sampleQ2 ∧
    resolve oracleAlways sampleQ2 Option.none =
      resolve oracleAlways sampleQ2 (some { question_index := 2, raw_text := "" }) ∧
    getQuestionStatus 7 [(7, " ")] none = QuestionStatus.unanswered := by
  refine ⟨?_, ?_, ?_⟩
  · exact unanswered_blank_equiv.2.1 oracleAlways sampleQ2 _ (by decide)
  · exact unanswered_blank_equiv.1 oracleAlways sampleQ2 2
  · exact unanswered_blank_equiv.2.2.2.2.2.2.2 7 [(7, " ")] " " (by decide) (by decide)

/-! ## C7: deterministic choice grading by first character -/

theorem resolve_choice (oracle : Oracle) (q : Question) (a : Answer) (ca : String)
    (h1 : q.correct_answer = some ca) (h2 : q.qtype = QType.choice)
    (h3 : jsTrim a.raw_text ≠ "") :
    resolve oracle q (some a) = choiceVerdict q ca a.raw_text := by
  simp [resolve, h1, h2, h3]

def sampleChoiceQ : Question :=
  { index := 1
    qtype := .choice
    prompt_text := "下列哪项正确？"
    options := ["A. 甲", "B. 乙"]
    knowledge_points := ["运动学基础"]
    difficulty := "medium"
    bounding_regions := []
    correct_answer := some "A" }

/-- C7: for a choice question with a known `correct_answer` and a
non-blank submitted answer, the resolver decides correctness without the
oracle, and the verdict is correct exactly when the lower-cased first
characters of the submitted text and of `correct_answer` coincide; on the
front end, clicking an option submits exactly the option string's first
character (`option.charAt(0)`), which carries the same first character
the resolver compares. -/
theorem choice_first_char_grading :
    (∀ (oracle : Oracle) (q : Question) (a : Answer) (ca : String),
      q.correct_answer = some ca → q.qtype = .choice → jsTrim a.raw_text ≠ "" →
      ((resolve oracle q (some a)).correct = true ↔
        firstCharLower a.raw_text = firstCharLower ca)) ∧
    (∀ (o1 o2 : Oracle) (q : Question) (a : Option Answer) (ca : String),
      q.correct_answer = some ca → q.qtype = .choice →
      resolve o1 q a = resolve o2 q a) ∧
    (∀ (opt : String) (c : Char) (rest : List Char),
      opt.data = c :: rest → submittedChoiceAnswer opt = String.singleton c) ∧
    (∀ opt : String,
      firstCharLower (submittedChoiceAnswer opt) = firstCharLower opt) := by
  refine ⟨?_, ?_, ?_, ?_⟩
  · intro oracle q a ca h1 h2 h3
    rw [resolve_choice oracle q a ca h1 h2 h3]
    simp [choiceVerdict]
  · intro o1 o2 q a ca h1 h2
    cases a with
    | none => rfl
    | some a =>
      by_cases h3 : jsTrim a.raw_text = ""
      · rw [resolve_blank o1 q a h3, resolve_blank o2 q a h3]
      · rw [resolve_choice o1 q a ca h1 h2 h3, resolve_choice o2 q a ca h1 h2 h3]
  · intro opt c rest h
    simp [submittedChoiceAnswer, jsCharAt, h]
  · intro opt
    cases h : opt.data with
    | nil =>
      have e : submittedChoiceAnswer opt = "" := by
        simp [submittedChoiceAnswer, jsCharAt, h]
      rw [e]
      unfold firstCharLower
      rw [h]
    | cons c rest =>
      have e : submittedChoiceAnswer opt = String.singleton c := by
        simp [submittedChoiceAnswer, jsCharAt, h]
      rw [e]
      unfold firstCharLower
      rw [h]
      rfl

/-- Witness for C7 at concrete inputs: the lower-case answer `a` matches
`correct_answer = "A"` case-insensitively, `B` does not, and clicking the
option `B. 乙` submits exactly `B`. -/
theorem choice_first_char_grading_witness :
    (resolve oracleAlways sampleChoiceQ
      (some { question_index := 1, raw_text := "a" })).correct = true ∧
    (resolve oracleAlways sampleChoiceQ
      (some { question_index := 1, raw_text := "B" })).correct = false ∧
    submittedChoiceAnswer "B. 乙" = "B" := by
  refine ⟨?_, ?_, ?_⟩
  · exact (choice_first_char_grading.1 oracleAlways sampleChoiceQ
      { question_index := 1, raw_text := "a" } "A" rfl rfl
      (by decide)).mpr (by decide)
  · have h := (choice_first_char_grading.1 oracleAlways sampleChoiceQ
      { question_index := 1, raw_text := "B" } "A" rfl rfl (by decide))
    have hne : ¬ (firstCharLower "B" = firstCharLower "A") := by decide
    have : ¬ ((resolve oracleAlways sampleChoiceQ
        (some { question_index := 1, raw_text := "B" })).correct = true) :=
      fun hh => hne (h.mp hh)
    simpa using this
  · decide

/-! ## C2: per-question oracle degradation in diagnose_batch -/

theorem resolve_oracle_failure (oracle : Oracle) (q : Question) (a : Answer)
    (h1 : jsTrim a.raw_text ≠ "")
    (h2 : ¬(q.correct_answer.isSome = true ∧ q.qtype = QType.choice))
    (h3 : oracle q a.raw_text = Option.none) :
    resolve oracle q (some a) = degradedVerdict q a.raw_text := by
  rcases hca : q.correct_answer with _ | ca
  · cases hqt : q.qtype <;> simp [resolve, h1, h3, hca, hqt]
  · have hqc : q.qtype ≠ QType.choice := by
      intro hc
      exact h2 ⟨by rw [hca]; rfl, hc⟩
    cases hqt : q.qtype with
    | choice => exact absurd hqt hqc
    | fill => simp [resolve, h1, h3, hca, hqt]
    | solve => simp [resolve, h1, h3, hca, hqt]
    | proof => simp [resolve, h1, h3, hca, hqt]
    | short_answer => simp [resolve, h1, h3, hca, hqt]

theorem resolve_oracle_success (oracle : Oracle) (q : Question) (a : Answer)
    (ov : OracleVerdict)
    (h1 : jsTrim a.raw_text ≠ "")
    (h2 : ¬(q.correct_answer.isSome = true ∧ q.qtype = QType.choice))
    (h3 : oracle q a.raw_text = some ov) :
    resolve oracle q (some a) = adoptVerdict a.raw_text ov := by
  rcases hca : q.correct_answer with _ | ca
  · cases hqt : q.qtype <;> simp [resolve, h1, h3, hca, hqt]
  · have hqc : q.qtype ≠ QType.choice := by
      intro hc
      exact h2 ⟨by rw [hca]; rfl, hc⟩
    cases hqt : q.qtype with
    | choice => exact absurd hqt hqc
    | fill => simp [resolve, h1, h3, hca, hqt]
    | solve => simp [resolve, h1, h3, hca, hqt]
    | proof => simp [resolve, h1, h3, hca, hqt]
    | short_answer => simp [resolve, h1, h3, hca, hqt]

/-- C2: with distinct question indices, `diagnose_batch` always returns a
complete report regardless of the oracle's behaviour; each question whose
oracle call fails gets the degraded verdict (`error_kind = unknown`,
`mastery_score = 0`, the generic retry notice) while every question whose
oracle call succeeds adopts the oracle's verdict — so a failure is
confined to its question and never voids the batch. -/
theorem diagnose_batch_degrades_per_question (oracle : Oracle)
    (qs : List Question) (ans : List Answer)
    (h : (qs.map Question.index).Nodup) :
    (diagnose_batch oracle qs ans).isOk = true ∧
    ∀ rpt, diagnose_batch oracle qs ans = .ok rpt →
      rpt.summary.total_questions = qs.length ∧
      rpt.results.map Prod.fst = qs ∧
      (∀ p ∈ rpt.results, oracleFails oracle p.1 ans = true →
        p.2.error_kind = .unknown ∧ p.2.mastery_score = 0 ∧
        p.2.guidance_text = retryNotice) ∧
      (∀ p ∈ rpt.results, ∀ (a : Answer) (ov : OracleVerdict),
        lookupAnswer ans p.1.index = some a → jsTrim a.raw_text ≠ "" →
        ¬(p.1.correct_answer.isSome = true ∧ p.1.qtype = QType.choice) →
        oracle p.1 a.raw_text = some ov →
        p.2 = adoptVerdict a.raw_text ov) := by
  constructor
  · unfold diagnose_batch
    rw [if_pos h]
    rfl
  · intro rpt hrpt
    unfold diagnose_batch at hrpt
    rw [if_pos h] at hrpt
    injection hrpt with hrpt
    subst hrpt
    refine ⟨?_, ?_, ?_, ?_⟩
    · simp [aggregate]
    · rw [List.map_map]
      have e : (Prod.fst ∘ fun q : Question =>
          (q, resolve oracle q (lookupAnswer ans q.index))) = id := rfl
      rw [e, List.map_id]
    · intro p hp hfail
      obtain ⟨q, hq, rfl⟩ := List.mem_map.mp hp
      revert hfail
      unfold oracleFails
      cases e : lookupAnswer ans q.index with
      | none => intro hfail; cases hfail
      | some a =>
        intro hfail
        simp only [Bool.and_eq_true, Bool.not_eq_true',
          Option.isNone_iff_eq_none, beq_eq_false_iff_ne] at hfail
        obtain ⟨⟨h1, h2⟩, h3⟩ := hfail
        have h2' : ¬(q.correct_answer.isSome = true ∧ q.qtype = QType.choice) := by
          intro hc
          rw [Bool.and_eq_false_iff] at h2
          rcases h2 with h2 | h2
          · rw [hc.1] at h2; cases h2
          · rw [hc.2] at h2; simp at h2
        simp only [e]
        rw [resolve_oracle_failure oracle q a h1 h2' h3]
        exact ⟨rfl, rfl, rfl⟩
    · intro p hp a ov ha h1 h2 h3
      obtain ⟨q, hq, rfl⟩ := List.mem_map.mp hp
      simp only at ha h2 h3 ⊢
      simp only [ha]
      exact resolve_oracle_success oracle q a ov h1 h2 h3

def mkFillQ (i : Nat) : Question :=
  { index := i
    qtype := .fill
    prompt_text := "题目"
    options := []
    knowledge_points := []
    difficulty := "medium"
    bounding_regions := []
    correct_answer := none }

def qs5 : List Question :=
  [mkFillQ 1, mkFillQ 2, mkFillQ 3, mkFillQ 4, mkFillQ 5]

def ans5 : List Answer :=
  [⟨1, "x"⟩, ⟨2, "x"⟩, ⟨3, "x"⟩, ⟨4, "x"⟩, ⟨5, "x"⟩]

def oracle5 : Oracle := fun q _ =>
  if q.index = 3 then Option.none
  else some { correct := true
              correct_answer := "x"
              error_kind := "none"
              mastery_score := 85
              guidance_text := "很好"
              suggested_practice := [] }

/-- Witness for C2 at a concrete batch of five questions where the oracle
fails exactly on question 3: the batch still succeeds, the report covers
all 5 questions, and only question 3 carries `error_kind = unknown`. -/
theorem diagnose_batch_degrades_witness :
    (diagnose_batch oracle5 qs5 ans5).isOk = true ∧
    ((diagnose_batch oracle5 qs5 ans5).toOption.map
      (fun rpt => rpt.summary.total_questions)) = some 5 ∧
    ((diagnose_batch oracle5 qs5 ans5).toOption.map
      (fun rpt => rpt.results.map (fun p => p.2.error_kind))) =
      some [ErrorKind.none, ErrorKind.none, ErrorKind.unknown,
            ErrorKind.none, ErrorKind.none] := by
  have h := diagnose_batch_degrades_per_question oracle5 qs5 ans5 (by decide)
  refine ⟨h.1, ?_, ?_⟩ <;> decide

/-! ## C5: weak-knowledge-point ranking -/

def mkKQ (i : Nat) : Question :=
  { index := i
    qtype := .fill
    prompt_text := "题目"
    options := []
    knowledge_points := ["K"]
    difficulty := "medium"
    bounding_regions := []
    correct_answer := none }

def samplePairs : List (Question × DiagnosisVerdict) :=
  [(mkKQ 1, sampleVerdictWrong), (mkKQ 2, sampleVerdictWrong),
   (mkKQ 3, sampleVerdictCorrect)]

theorem kpStat_samplePairs :
    kpStat samplePairs "K" =
      { knowledge := "K", error_count := 2, total_count := 3,
        accuracy := 100 / 3, recommended_practice_count := 4 } := by
  have e1 : samplePairs.filter (fun p => "K" ∈ p.1.knowledge_points) = samplePairs := by
    decide
  unfold kpStat
  dsimp only
  rw [e1]
  have e2 : (samplePairs.filter (fun p => classify p.2 = Bucket.wrong)).length = 2 := by
    decide
  have e3 : (samplePairs.filter (fun p => classify p.2 ≠ Bucket.unanswered)).length = 3 := by
    decide
  rw [e2, e3]
  norm_num

/-- C5: the `weak_knowledge_points` computation — on the spec's own
example (a point referenced by three answered questions, two wrong and one
correct) it produces `error_count = 2`, `total_count = 3`,
`accuracy = 100/3 ≈ 33.3`, `recommended_practice_count = 4`; in general
the list keeps at most 5 entries, sorted ascending by accuracy with ties
broken by descending `error_count`, every entry has `total_count > 0` and
`accuracy < 100`, and every entry is exactly the accumulated stat of its
knowledge point over the verdict list. -/
theorem weak_knowledge_point_ranking :
    weakKnowledgePoints samplePairs =
      [{ knowledge := "K", error_count := 2, total_count := 3,
         accuracy := 100 / 3, recommended_practice_count := 4 }] ∧
    (∀ pairs : List (Question × DiagnosisVerdict),
      (weakKnowledgePoints pairs).length ≤ 5) ∧
    (∀ pairs : List (Question × DiagnosisVerdict),
      List.Sorted wkpLE (weakKnowledgePoints pairs)) ∧
    (∀ (pairs : List (Question × DiagnosisVerdict)) (w : WeakKnowledgePoint),
      w ∈ weakKnowledgePoints pairs →
        0 < w.total_count ∧ w.accuracy < 100 ∧ w = kpStat pairs w.knowledge) := by
  refine ⟨?_, ?_, ?_, ?_⟩
  · unfold weakKnowledgePoints
    have ec : ((samplePairs.filter (fun p => classify p.2 = Bucket.wrong)).flatMap
        (fun p => p.1.knowledge_points)).dedup = ["K"] := by decide
    dsimp only
    rw [ec, List.map_cons, List.map_nil, kpStat_samplePairs]
    have hpred : (0 : Nat) < 3 ∧ (100 / 3 : ℚ) < 100 := by norm_num
    simp [List.filter, List.insertionSort, hpred]
  · intro pairs
    unfold weakKnowledgePoints
    exact List.length_take_le _ _
  · intro pairs
    unfold weakKnowledgePoints
    exact List.Pairwise.sublist (List.take_sublist _ _)
      (List.sorted_insertionSort wkpLE _)
  · intro pairs w hw
    unfold weakKnowledgePoints at hw
    have h1 : w ∈ List.insertionSort wkpLE
        (((((pairs.filter (fun p => classify p.2 = Bucket.wrong)).flatMap
          (fun p => p.1.knowledge_points)).dedup).map (kpStat pairs)).filter
            (fun x => 0 < x.total_count ∧ x.accuracy < 100)) :=
      (List.take_sublist _ _).subset hw
    have h2 := (List.mem_insertionSort wkpLE).mp h1
    obtain ⟨hmem, hdec⟩ := List.mem_filter.mp h2
    have hprop : 0 < w.total_count ∧ w.accuracy < 100 := of_decide_eq_true hdec
    refine ⟨hprop.1, hprop.2, ?_⟩
    obtain ⟨kp, _, hkp⟩ := List.mem_map.mp hmem
    have hkn : w.knowledge = kp := by rw [← hkp]; rfl
    rw [hkn, hkp]

/-- Witness for C5: the single computed weak point of the sample verdict
list satisfies the filter bounds and coincides with its accumulated
stat. -/
theorem weak_knowledge_point_ranking_witness :
    0 < ({ knowledge := "K", error_count := 2, total_count := 3,
           accuracy := 100 / 3,
           recommended_practice_count := 4 } : WeakKnowledgePoint).total_count ∧
    ({ knowledge := "K", error_count := 2, total_count := 3,
       accuracy := 100 / 3,
       recommended_practice_count := 4 } : WeakKnowledgePoint).accuracy < 100 ∧
    ({ knowledge := "K", error_count := 2, total_count := 3,
       accuracy := 100 / 3,
       recommended_practice_count := 4 } : WeakKnowledgePoint) =
      kpStat samplePairs "K" := by
  have hw := weak_knowledge_point_ranking.2.2.2 samplePairs
    { knowledge := "K", error_count := 2, total_count := 3,
      accuracy := 100 / 3, recommended_practice_count := 4 }
    (by rw [weak_knowledge_point_ranking.1]; exact List.mem_singleton.mpr rfl)
  exact hw

/-! ## C6: overall_suggestion clause order, tier thresholds, and the
repository's mastery-tier helpers -/

/-- C6: `overall_suggestion` concatenates, in fixed order, the
unanswered-questions nudge (exactly when `unanswered_count > 0`), the
accuracy-tier remark banded at ≥90 / ≥75 / ≥60 / below, and — when weak
points exist — a clause naming at most 3 of the top weak points; the
aggregate report's suggestion is exactly this synthesis, and the
repository's tier helpers band at 90/75/60/40 (`getMasteryLevel`) and
90/80/60/40 (`getMasteryLabel`). -/
theorem suggestion_clause_order_and_tiers :
    (∀ (n : Nat) (acc : ℚ) (weak : List WeakKnowledgePoint), 0 < n →
      overallSuggestion n acc weak =
        unansweredNudge n ++ tierRemark acc ++
          (if weak.isEmpty then "" else weakClause weak)) ∧
    (∀ (acc : ℚ) (weak : List WeakKnowledgePoint),
      overallSuggestion 0 acc weak =
        tierRemark acc ++ (if weak.isEmpty then "" else weakClause weak)) ∧
    (∀ acc : ℚ, 90 ≤ acc → tierRemark acc = "正确率优秀，继续保持。") ∧
    (∀ acc : ℚ, 75 ≤ acc → acc < 90 →
      tierRemark acc = "正确率良好，还有提升空间。") ∧
    (∀ acc : ℚ, 60 ≤ acc → acc < 75 →
      tierRemark acc = "正确率一般，建议加强基础练习。") ∧
    (∀ acc : ℚ, acc < 60 →
      tierRemark acc = "正确率较低，建议系统复习相关知识点。") ∧
    (∀ weak : List WeakKnowledgePoint,
      weakClause weak = "主要薄弱知识点：" ++
        String.intercalate "、" ((weak.take 3).map WeakKnowledgePoint.knowledge) ++
        "。建议集中练习这些知识点。" ∧
      ((weak.take 3).map WeakKnowledgePoint.knowledge).length ≤ 3) ∧
    (∀ pairs : List (Question × DiagnosisVerdict),
      (aggregate pairs).overall_suggestion =
        overallSuggestion (aggregate pairs).unanswered_count
          (aggregate pairs).accuracy (aggregate pairs).weak_knowledge_points) ∧
    (∀ s : Int,
      (90 ≤ s → (getMasteryLevel s).level = "优秀") ∧
      (75 ≤ s → s < 90 → (getMasteryLevel s).level = "良好") ∧
      (60 ≤ s → s < 75 → (getMasteryLevel s).level = "及格") ∧
      (40 ≤ s → s < 60 → (getMasteryLevel s).level = "待提高") ∧
      (s < 40 → (getMasteryLevel s).level = "需要加强")) ∧
    (∀ s : Int,
      (90 ≤ s → getMasteryLabel s = "优秀") ∧
      (80 ≤ s → s < 90 → getMasteryLabel s = "良好") ∧
      (60 ≤ s → s < 80 → getMasteryLabel s = "一般") ∧
      (40 ≤ s → s < 60 → getMasteryLabel s = "较弱") ∧
      (s < 40 → getMasteryLabel s = "需加强")) := by
  refine ⟨?_, ?_, ?_, ?_, ?_, ?_, ?_, ?_, ?_, ?_⟩
  · intro n acc weak h
    unfold overallSuggestion
    rw [if_pos h]
  · intro acc weak
    unfold overallSuggestion
    rw [if_neg (by norm_num), String.empty_append]
  · intro acc h
    unfold tierRemark
    rw [if_pos h]
  · intro acc h1 h2
    unfold tierRemark
    rw [if_neg (by linarith : ¬ acc ≥ 90), if_pos (show acc ≥ 75 from h1)]
  · intro acc h1 h2
    unfold tierRemark
    rw [if_neg (by linarith : ¬ acc ≥ 90), if_neg (by linarith : ¬ acc ≥ 75),
      if_pos (show acc ≥ 60 from h1)]
  · intro acc h
    unfold tierRemark
    rw [if_neg (by linarith : ¬ acc ≥ 90), if_neg (by linarith : ¬ acc ≥ 75),
      if_neg (by linarith : ¬ acc ≥ 60)]
  · intro weak
    refine ⟨rfl, ?_⟩
    rw [List.length_map]
    exact List.length_take_le _ _
  · intro pairs
    rfl
  · intro s
    refine ⟨?_, ?_, ?_, ?_, ?_⟩
    · intro h
      unfold getMasteryLevel
      rw [if_pos (show s ≥ 90 from h)]
    · intro h1 h2
      unfold getMasteryLevel
      rw [if_neg (by omega : ¬ s ≥ 90), if_pos (show s ≥ 75 from h1)]
    · intro h1 h2
      unfold getMasteryLevel
      rw [if_neg (by omega : ¬ s ≥ 90), if_neg (by omega : ¬ s ≥ 75),
        if_pos (show s ≥ 60 from h1)]
    · intro h1 h2
      unfold getMasteryLevel
      rw [if_neg (by omega : ¬ s ≥ 90), if_neg (by omega : ¬ s ≥ 75),
        if_neg (by omega : ¬ s ≥ 60), if_pos (show s ≥ 40 from h1)]
    · intro h
      unfold getMasteryLevel
      rw [if_neg (by omega : ¬ s ≥ 90), if_neg (by omega : ¬ s ≥ 75),
        if_neg (by omega : ¬ s ≥ 60), if_neg (by omega : ¬ s ≥ 40)]
  · intro s
    refine ⟨?_, ?_, ?_, ?_, ?_⟩
    · intro h
      unfold getMasteryLabel
      rw [if_pos (show s ≥ 90 from h)]
    · intro h1 h2
      unfold getMasteryLabel
      rw [if_neg (by omega : ¬ s ≥ 90), if_pos (show s ≥ 80 from h1)]
    · intro h1 h2
      unfold getMasteryLabel
      rw [if_neg (by omega : ¬ s ≥ 90), if_neg (by omega : ¬ s ≥ 80),
        if_pos (show s ≥ 60 from h1)]
    · intro h1 h2
      unfold getMasteryLabel
      rw [if_neg (by omega : ¬ s ≥ 90), if_neg (by omega : ¬ s ≥ 80),
        if_neg (by omega : ¬ s ≥ 60), if_pos (show s ≥ 40 from h1)]
    · intro h
      unfold getMasteryLabel
      rw [if_neg (by omega : ¬ s ≥ 90), if_neg (by omega : ¬ s ≥ 80),
        if_neg (by omega : ¬ s ≥ 60), if_neg (by omega : ¬ s ≥ 40)]

/-- Witness for C6 at concrete scores: accuracy 80 falls in the good band
and produces the nudge-first clause order with one unanswered question,
and the two mastery helpers agree on the 85-point band label. -/
theorem suggestion_clause_order_witness :
    overallSuggestion 1 80 [] = unansweredNudge 1 ++ tierRemark 80 ∧
    tierRemark 80 = "正确率良好，还有提升空间。" ∧
    (getMasteryLevel 85).level = "良好" ∧
    getMasteryLabel 85 = "良好" := by
  refine ⟨?_, ?_, ?_, ?_⟩
  · have h := suggestion_clause_order_and_tiers.1 1 80 [] (by norm_num)
    simpa using h
  · exact suggestion_clause_order_and_tiers.2.2.2.1 80 (by norm_num) (by norm_num)
  · exact (suggestion_clause_order_and_tiers.2.2.2.2.2.2.2.2.1 85).2.1
      (by norm_num) (by norm_num)
  · exact (suggestion_clause_order_and_tiers.2.2.2.2.2.2.2.2.2 85).2.1
      (by norm_num) (by norm_num)

end AiLearning
